import Mathlib

/-!
Verification of the ezyago multi-user trading bot (Python sources under
src/ezyago-main/src) against its natural-language specification.

Python floats are modelled by rationals; every arithmetic comparison the
claims depend on is robust (no result hinges on float rounding).  Strings
returned by the code ("LONG", "HOLD", ...) are modelled by Lean strings.
Stateful methods are modelled as pure state-transition functions that also
emit the externally visible actions (orders submitted, ledger records
written, sleeps) as an event trace.
-/

namespace Ezyago

/-! ## Signal engine: src/trading_strategy.py -/

/-- One candle row; the strategy reads only the close price
(`float(kline[4])` in the source), so the other columns are irrelevant
for the signal computations. -/
structure Kline where
  close : ℚ
deriving Repr, DecidableEq

/-- The EMA recurrence of `TradingStrategy._calculate_ema`, lines 51-53:
`ema = price * multiplier + prev * (1 - multiplier)`, one output per
remaining price. -/
def emaLoop (m : ℚ) (acc : ℚ) : List ℚ → List ℚ
  | [] => []
  | p :: rest =>
      let e := p * m + acc * (1 - m)
      e :: emaLoop m e rest

/-- Function `TradingStrategy._calculate_ema` (trading_strategy.py lines 38-57):
if fewer prices than the period, return the prices unchanged; otherwise
seed with the SMA of the first `period` prices, run the EMA recurrence
over the rest, and left-pad with `period - 1` copies of the seed. -/
def calculate_ema (prices : List ℚ) (period : ℕ) : List ℚ :=
  if prices.length < period then prices
  else
    let m : ℚ := 2 / (period + 1)
    let sma : ℚ := (prices.take period).sum / period
    List.replicate (period - 1) sma ++ (sma :: emaLoop m sma (prices.drop period))

/-- Python negative index `l[-2]` (second to last), defaulting like the
source would only be exercised on lists long enough for it to exist. -/
def secondLast (l : List ℚ) : ℚ := l.getD (l.length - 2) 0

/-- Python negative index `l[-1]` (last element). -/
def lastElem (l : List ℚ) : ℚ := l.getD (l.length - 1) 0

/-- Method `TradingStrategy.analyze_klines` (trading_strategy.py lines 10-36):
guard `len(klines) < long_ema_period` returns HOLD; otherwise compare the
last two values of the short and long EMA series and return LONG on a
strict upward cross, SHORT on a strict downward cross, HOLD otherwise. -/
def analyze_klines (short_ema_period long_ema_period : ℕ) (klines : List Kline) : String :=
  if klines.length < long_ema_period then "HOLD"
  else
    let close_prices := klines.map Kline.close
    let short_ema := calculate_ema close_prices short_ema_period
    let long_ema := calculate_ema close_prices long_ema_period
    let current_short := lastElem short_ema
    let current_long := lastElem long_ema
    let prev_short := secondLast short_ema
    let prev_long := secondLast long_ema
    if prev_short < prev_long ∧ current_short > current_long then "LONG"
    else if prev_short > prev_long ∧ current_short < current_long then "SHORT"
    else "HOLD"

/-- The global strategy instance `trading_strategy` is constructed with
periods (9, 21) (trading_strategy.py line 60). -/
def analyze_klines_default (klines : List Kline) : String :=
  analyze_klines 9 21 klines

/-- A 21-candle window: twenty closes at 100 followed by one at 200. -/
def window21 : List Kline :=
  List.replicate 20 ⟨100⟩ ++ [⟨200⟩]

/-- A 22-candle window: twenty-one closes at 100 followed by one at 200. -/
def window22 : List Kline :=
  List.replicate 21 ⟨100⟩ ++ [⟨200⟩]

/-! ## Candle-window update: UserBotInstance._handle_websocket_message -/

/-- Python `list.pop(0)`: removes and discards the first element; on an
empty list it raises IndexError, modelled as `none`. -/
def popFront {α : Type} : List α → Option (List α)
  | [] => none
  | _ :: t => some t

/-- Lines 196-201 of user_bot_instance.py: on a closed candle the handler
does `self.klines.pop(0)` unconditionally and then appends the freshly
built row, so the window keeps its length whenever it was non-empty. -/
def updateKlines {α : Type} (window : List α) (newRow : α) : Option (List α) :=
  (popFront window).map (fun t => t ++ [newRow])

/-! ## Quantity formatting and trade execution: UserBotInstance -/

/-- Method `UserBotInstance._format_quantity` (lines 388-393): precision 0
floors to an integer; otherwise floor at the 10^-precision step. -/
def format_quantity (quantity_precision : ℕ) (quantity : ℚ) : ℚ :=
  if quantity_precision = 0 then (⌊quantity⌋ : ℚ)
  else
    let factor : ℚ := 10 ^ quantity_precision
    (⌊quantity * factor⌋ : ℚ) / factor

/-- The slice of the per-user bot state that _execute_trade and
_check_take_profit read and write (position tracking fields of
UserBotInstance; entry_time is wall-clock time and is not modelled). -/
structure BotState where
  position_side : Option String
  entry_price : Option ℚ
  position_quantity : Option ℚ
  current_trade_id : Option String
deriving Repr, DecidableEq

/-- One entry of the exchange's open-position list; the code only reads
its `positionAmt` field. -/
structure PositionInfo where
  positionAmt : ℚ
deriving Repr, DecidableEq

/-- Outcome of the gateway call create_market_order_with_sl as observed by
its caller: a truthy main order, a falsy return value, or a raised
exception (which the caller's outer `except` swallows). -/
inductive BracketOutcome
  | filled
  | nullOrder
  | raised
deriving Repr, DecidableEq

/-- Exchange responses consumed during one _execute_trade call.
`close_succeeds` records whether close_position returned a response or
None; the code discards that value, which the claims probe. -/
structure TradeEnv where
  open_positions : List PositionInfo
  market_price : Option ℚ
  bracket : BracketOutcome
  close_succeeds : Bool
  fresh_trade_id : String
deriving Repr, DecidableEq

/-- Per-user settings read by _execute_trade. -/
structure BotConfig where
  order_size_usdt : ℚ
  leverage : ℚ
  quantity_precision : ℕ
deriving Repr, DecidableEq

/-- Externally visible actions of the bot instance, in program order:
ledger records written to Firebase, orders submitted to the exchange and
the fixed settle sleep between a flip's close and its open. -/
inductive Event
  | logClosed (close_reason : String)
  | closeOrder (position_amt : ℚ) (side_to_close : String)
  | settleSleep
  | bracketOrder (side : String) (quantity : ℚ) (entry_price : ℚ)
  | logOpen (side : String) (entry_price : ℚ) (quantity : ℚ)
deriving Repr, DecidableEq

/-- Method `UserBotInstance._execute_trade` (lines 233-283).  If the
exchange reports an open position: log a CLOSED_BY_FLIP record, submit
the close (its result is discarded) and sleep the 1s settle delay.  Then
fetch the market price (abort on failure), compute the formatted
quantity (abort when it is ≤ 0, leaving the state untouched) and place
the bracket order: on a truthy order record the new position and log an
OPEN record; on a falsy order set position_side to None; a raised
exception is caught by the method's outer `except`, leaving the state
exactly as it was. -/
def execute_trade (cfg : BotConfig) (st : BotState) (env : TradeEnv)
    (new_signal : String) : BotState × List Event :=
  let closeEvents : List Event :=
    match env.open_positions with
    | [] => []
    | position :: _ =>
        let position_amt := position.positionAmt
        let side_to_close := if position_amt > 0 then "SELL" else "BUY"
        [Event.logClosed "CLOSED_BY_FLIP",
         Event.closeOrder position_amt side_to_close,
         Event.settleSleep]
  let side := if new_signal = "LONG" then "BUY" else "SELL"
  match env.market_price with
  | none => (st, closeEvents)
  | some price =>
      let quantity :=
        format_quantity cfg.quantity_precision (cfg.order_size_usdt * cfg.leverage / price)
      if quantity ≤ 0 then (st, closeEvents)
      else
        match env.bracket with
        | BracketOutcome.filled =>
            ({ st with
                position_side := some new_signal
                entry_price := some price
                position_quantity := some quantity
                current_trade_id := some env.fresh_trade_id },
             closeEvents ++ [Event.bracketOrder side quantity price,
                             Event.logOpen new_signal price quantity])
        | BracketOutcome.nullOrder =>
            ({ st with position_side := none },
             closeEvents ++ [Event.bracketOrder side quantity price])
        | BracketOutcome.raised =>
            (st, closeEvents ++ [Event.bracketOrder side quantity price])

/-- Method `UserBotInstance._check_take_profit` (lines 285-324): bail out
when entry price or side is unset or the price fetch fails; compute the
signed profit percentage; when it reaches the target, submit the close
(result discarded: `close_result` is never read), log a
CLOSED_BY_TAKE_PROFIT record and clear all position-tracking fields. -/
def check_take_profit (take_profit_percent : ℚ) (st : BotState)
    (market_price : Option ℚ) (position : PositionInfo)
    (close_result : Bool) : BotState × List Event :=
  match st.entry_price, st.position_side with
  | some entry_price, some position_side =>
      (match market_price with
       | none => (st, [])
       | some current_price =>
           let profit_percent :=
             if position_side = "LONG" then
               (current_price - entry_price) / entry_price * 100
             else
               (entry_price - current_price) / entry_price * 100
           if profit_percent ≥ take_profit_percent then
             let position_amt := position.positionAmt
             let side_to_close := if position_amt > 0 then "SELL" else "BUY"
             ({ st with
                 position_side := none
                 entry_price := none
                 position_quantity := none
                 current_trade_id := none },
              [Event.closeOrder position_amt side_to_close,
               Event.logClosed "CLOSED_BY_TAKE_PROFIT"])
           else (st, []))
  | _, _ => (st, [])

/-- True exactly on a CLOSED ledger-record event. -/
def isLogClosed : Event → Bool
  | Event.logClosed _ => true
  | _ => false

/-- True exactly on an OPEN ledger-record event. -/
def isLogOpen : Event → Bool
  | Event.logOpen _ _ _ => true
  | _ => false

/-- True exactly on a close-order submission event. -/
def isCloseOrder : Event → Bool
  | Event.closeOrder _ _ => true
  | _ => false

/-- True exactly on a bracket-order submission event. -/
def isBracketOrder : Event → Bool
  | Event.bracketOrder _ _ _ => true
  | _ => false

/-! ## Gateway: src/binance_client_multi.py -/

/-- Result of one Binance REST call: a response, or a BinanceAPIException
carrying the error message. -/
inductive LegOutcome
  | ok (response : ℕ)
  | apiError (msg : String)
deriving Repr, DecidableEq

/-- Exchange responses to the two legs of one bracket-order call. -/
structure GatewayEnv where
  entry_leg : LegOutcome
  stop_leg : LegOutcome
deriving Repr, DecidableEq

/-- Actions create_market_order_with_sl performs against the exchange.
The stop price is carried as a rational; its decimal rendering to
price_precision digits is presentation only. -/
inductive GwEvent
  | marketOrder (side : String) (quantity : ℚ)
  | halfSecondSleep
  | stopMarketOrder (side : String) (stop_price : ℚ)
  | cancelAllOpenOrders
deriving Repr, DecidableEq

/-- True when the first character list is an initial segment of the
second. -/
def startsWithChars : List Char → List Char → Bool
  | [], _ => true
  | _ :: _, [] => false
  | p :: ps, c :: cs => p == c && startsWithChars ps cs

/-- True when `pat` occurs contiguously somewhere in `s`. -/
def containsSubAux (pat : List Char) : List Char → Bool
  | [] => startsWithChars pat []
  | c :: cs => startsWithChars pat (c :: cs) || containsSubAux pat cs

/-- Python substring test `pat in s`, on the underlying character
lists. -/
def containsSub (s pat : String) : Bool :=
  containsSubAux pat.toList s.toList

/-- Lines 98-106 of binance_client_multi.py: the except block maps the
BinanceAPIException message to a user-facing message and raises it; every
branch raises, so the cancel-open-orders code after it (lines 108-111) is
unreachable. -/
def translate_api_error (error_msg : String) : String :=
  if containsSub error_msg "Invalid API-key" then
    "Geçersiz API anahtarı. Lütfen API anahtarlarınızı kontrol edin."
  else if containsSub error_msg "Signature for this request" then
    "API imza hatası. API Secretınızı kontrol edin."
  else if containsSub error_msg "Insufficient balance" then
    "Yetersiz bakiye. Hesabınızda yeterli USDT bulunmuyor."
  else
    "Binance API hatası: " ++ error_msg

/-- Method `MultiBinanceClient.create_market_order_with_sl` (lines
54-111): place the MARKET entry; sleep 0.5s; compute the stop price from
the entry price and stop-loss percent; place the STOP_MARKET leg; return
the main order.  On a BinanceAPIException from either leg the except
block re-raises a translated message (modelled as `Except.error`); no
cancel or close action is ever emitted on the way out, because the
cleanup after the raise statements is dead code. -/
def create_market_order_with_sl (env : GatewayEnv) (side : String)
    (quantity entry_price : ℚ) (stop_loss_percent : ℚ) :
    Except String ℕ × List GwEvent :=
  match env.entry_leg with
  | LegOutcome.apiError msg =>
      (Except.error (translate_api_error msg), [GwEvent.marketOrder side quantity])
  | LegOutcome.ok main_order =>
      let sl_price :=
        if side = "BUY" then entry_price * (1 - stop_loss_percent / 100)
        else entry_price * (1 + stop_loss_percent / 100)
      let sl_side := if side = "BUY" then "SELL" else "BUY"
      match env.stop_leg with
      | LegOutcome.apiError msg =>
          (Except.error (translate_api_error msg),
           [GwEvent.marketOrder side quantity, GwEvent.halfSecondSleep,
            GwEvent.stopMarketOrder sl_side sl_price])
      | LegOutcome.ok _ =>
          (Except.ok main_order,
           [GwEvent.marketOrder side quantity, GwEvent.halfSecondSleep,
            GwEvent.stopMarketOrder sl_side sl_price])

/-- Method `MultiBinanceClient.close_position` (lines 113-134): cancels
resting orders then submits a reduce-only market order; a
BinanceAPIException is caught inside the method and None is returned, so
the call never raises toward the bot instance. -/
def close_position (outcome : LegOutcome) : Option ℕ :=
  match outcome with
  | LegOutcome.ok response => some response
  | LegOutcome.apiError _ => none

/-! ## Registry: src/bot_manager.py and UserBotInstance.start -/

/-- The four typed failure reasons of UserBotInstance.start, in raise
order: client initialisation failed (ExchangeUnavailable, line 83),
symbol lookup returned nothing (SymbolNotFound, line 89), leverage could
not be set (InsufficientPermission, line 97), historical klines empty
(NoHistoricalData, line 108). -/
inductive StartFailure
  | exchangeUnavailable
  | symbolNotFound
  | insufficientPermission
  | noHistoricalData
deriving Repr, DecidableEq

/-- How one UserBotInstance.start invocation unfolds. -/
inductive StartOutcome
  | success
  | alreadyActive
  | failure (reason : StartFailure)
deriving Repr, DecidableEq

/-- Method `UserBotInstance.start` (lines 58-119): returns True on
success and False when the bot is already active.  Every failure raises a
typed exception that the method's own `except` block (line 117) catches;
after cleanup the method falls off the end and returns None — the typed
reason never escapes the method. -/
def instance_start (outcome : StartOutcome) : Option Bool :=
  match outcome with
  | StartOutcome.success => some true
  | StartOutcome.alreadyActive => some false
  | StartOutcome.failure _ => none

/-- What one BotManager.start_user_bot call leaves behind: the registry
map, the user-status writes performed, and the boolean handed back. -/
structure ManagerResult where
  registered : List String
  persisted : List (String × String)
  returned : Bool
deriving Repr, DecidableEq

/-- Method `BotManager.start_user_bot` (lines 19-84) for a user not
already in the map and with decryptable credentials: run the instance's
start; when its result is truthy, register the instance and persist a
running status; on any falsy result (False or the None that every typed
failure collapses to) register nothing, persist nothing and return
False. -/
def start_user_bot (bots : List String) (uid : String)
    (outcome : StartOutcome) : ManagerResult :=
  match instance_start outcome with
  | some true =>
      { registered := bots ++ [uid]
        persisted := [(uid, "running")]
        returned := true }
  | _ =>
      { registered := bots
        persisted := []
        returned := false }

/-! ## Sweep: BotManager.cleanup_inactive_bots -/

/-- One entry of the manager's user_bots map, together with how evicting
it behaves: whether is_running() is true, and whether stop() raises
during cleanup. -/
structure BotEntry where
  uid : String
  running : Bool
  evict_raises : Bool
deriving Repr, DecidableEq

/-- Lines 163-175: one per-entry eviction attempt, wrapped in its own
try/except.  Look the uid up in the current map; stop it (a raise aborts
this entry only, leaving it in the map and unpersisted); on success
delete the entry and persist one stopped status. -/
def evictOne (bots : List BotEntry) (uid : String) :
    List BotEntry × List String :=
  match bots.find? (fun e => e.uid = uid) with
  | none => (bots, [])
  | some e =>
      if e.evict_raises then (bots, [])
      else (bots.filter (fun b => b.uid ≠ uid), [uid])

/-- The eviction loop of one sweep iteration, run over the uids collected
in the first phase, threading the mutating map. -/
def evictAll (bots : List BotEntry) : List String → List BotEntry × List String
  | [] => (bots, [])
  | u :: rest =>
      let step := evictOne bots u
      let next := evictAll step.1 rest
      (next.1, step.2 ++ next.2)

/-- One full iteration of BotManager.cleanup_inactive_bots (lines
152-178): first collect every uid whose instance reports not running,
then evict each collected uid in turn. -/
def sweepOnce (bots : List BotEntry) : List BotEntry × List String :=
  evictAll bots ((bots.filter (fun e => e.running = false)).map BotEntry.uid)

/-- The two sleeps the sweep loop can take between iterations. -/
inductive SweepSleep
  | fiveMinutes
  | oneMinuteBackoff
deriving Repr, DecidableEq

/-- The body of the while-True sweep loop: a normal iteration sweeps and
sleeps five minutes; an unexpected error is caught by the outer except
(line 180) and the loop retries after a one-minute backoff.  The body is
total and always yields a successor — the loop has no exit path. -/
def sweep_loop_step (bots : List BotEntry) (iteration_raises : Bool) :
    List BotEntry × List String × SweepSleep :=
  if iteration_raises then (bots, [], SweepSleep.oneMinuteBackoff)
  else
    let r := sweepOnce bots
    (r.1, r.2, SweepSleep.fiveMinutes)

/-! ## Concrete fixtures used by the theorems below -/

/-- Gateway responses where the entry leg fills and the stop leg is
rejected by the exchange. -/
def envStopFails : GatewayEnv :=
  { entry_leg := LegOutcome.ok 7, stop_leg := LegOutcome.apiError "boom" }

/-- A bot that currently believes it holds a LONG position. -/
def stLong : BotState :=
  { position_side := some "LONG", entry_price := some 50,
    position_quantity := some 2, current_trade_id := some "t0" }

/-- A bot with no position tracked. -/
def stFlat : BotState :=
  { position_side := none, entry_price := none,
    position_quantity := none, current_trade_id := none }

/-- Default-style settings: notional 25 USDT, leverage 10, one decimal of
quantity precision. -/
def cfgDefault : BotConfig :=
  { order_size_usdt := 25, leverage := 10, quantity_precision := 1 }

/-- Same settings with integer quantity precision. -/
def cfgPrec0 : BotConfig :=
  { order_size_usdt := 25, leverage := 10, quantity_precision := 0 }

/-- A flip at price 100 in which the bracket call raises. -/
def envRaise : TradeEnv :=
  { open_positions := [⟨2⟩], market_price := some 100,
    bracket := BracketOutcome.raised, close_succeeds := true,
    fresh_trade_id := "t1" }

/-- An open from flat at price 100 in which the bracket call returns a
falsy order. -/
def envNull : TradeEnv :=
  { open_positions := [], market_price := some 100,
    bracket := BracketOutcome.nullOrder, close_succeeds := true,
    fresh_trade_id := "t1" }

/-- A flip at price 100 in which the bracket call succeeds. -/
def envFlip : TradeEnv :=
  { open_positions := [⟨2⟩], market_price := some 100,
    bracket := BracketOutcome.filled, close_succeeds := true,
    fresh_trade_id := "t1" }

/-- A flip at price 1000, where 25 x 10 / 1000 = 0.25 floors to quantity
zero at precision 0. -/
def envLowPrice : TradeEnv :=
  { open_positions := [⟨2⟩], market_price := some 1000,
    bracket := BracketOutcome.filled, close_succeeds := true,
    fresh_trade_id := "t1" }

/-- A registry with one stopped entry that evicts cleanly, one running
entry, and one stopped entry whose stop() raises during eviction. -/
def botsExample : List BotEntry :=
  [⟨"a", false, false⟩, ⟨"b", true, false⟩, ⟨"c", false, true⟩]

end Ezyago

namespace Ezyago

/-! ## Claim C2: minimum window length for a signal -/

/-- C2 (amended): the Signal Engine returns HOLD whenever the window has
fewer closes than the long period itself — the guard on line 12 compares
against long_ema_period (21 by default), not long_ema_period + 1. -/
theorem C2_short_window_holds (short_ema_period long_ema_period : ℕ)
    (klines : List Kline) (h : klines.length < long_ema_period) :
    analyze_klines short_ema_period long_ema_period klines = "HOLD" := by
  unfold analyze_klines
  rw [if_pos h]

/-- C2 witness: the empty window is below the threshold and yields
HOLD. -/
theorem C2_witness :
    ([] : List Kline).length < 21 ∧ analyze_klines 9 21 [] = "HOLD" :=
  ⟨by decide, C2_short_window_holds 9 21 [] (by decide)⟩

/-- C2 counterexample: a window of exactly 21 closes — fewer than
long-period + 1 = 22 — yields LONG, not HOLD, refuting the claimed
threshold. -/
theorem C2_counterexample :
    window21.length < 21 + 1 ∧ analyze_klines_default window21 = "LONG"
    ∧ analyze_klines_default window21 ≠ "HOLD" := by
  have h : analyze_klines_default window21 = "LONG" := by
    norm_num [analyze_klines_default, analyze_klines, window21, calculate_ema, emaLoop,
      secondLast, lastElem, List.replicate, List.getD]
  exact ⟨by decide, h, by rw [h]; decide⟩

/-! ## Claim C3: crossover characterisation -/

/-- C3 (amended): for every window of at least 21 closes the signal is
LONG exactly when the short EMA was strictly below the long EMA at the
previous position and strictly above at the last; SHORT for the mirrored
strict transition; and HOLD whenever neither strict cross holds — in
particular a transition starting from equality yields HOLD, not LONG. -/
theorem C3_cross_characterisation (klines : List Kline) (h : 21 ≤ klines.length) :
    (analyze_klines_default klines = "LONG" ↔
       secondLast (calculate_ema (klines.map Kline.close) 9)
           < secondLast (calculate_ema (klines.map Kline.close) 21)
         ∧ lastElem (calculate_ema (klines.map Kline.close) 9)
           > lastElem (calculate_ema (klines.map Kline.close) 21))
    ∧ (analyze_klines_default klines = "SHORT" ↔
       secondLast (calculate_ema (klines.map Kline.close) 9)
           > secondLast (calculate_ema (klines.map Kline.close) 21)
         ∧ lastElem (calculate_ema (klines.map Kline.close) 9)
           < lastElem (calculate_ema (klines.map Kline.close) 21))
    ∧ (¬ (secondLast (calculate_ema (klines.map Kline.close) 9)
           < secondLast (calculate_ema (klines.map Kline.close) 21)
         ∧ lastElem (calculate_ema (klines.map Kline.close) 9)
           > lastElem (calculate_ema (klines.map Kline.close) 21)) →
       ¬ (secondLast (calculate_ema (klines.map Kline.close) 9)
           > secondLast (calculate_ema (klines.map Kline.close) 21)
         ∧ lastElem (calculate_ema (klines.map Kline.close) 9)
           < lastElem (calculate_ema (klines.map Kline.close) 21)) →
       analyze_klines_default klines = "HOLD") := by
  have hguard : ¬ klines.length < 21 := Nat.not_lt.mpr h
  simp only [analyze_klines_default, analyze_klines]
  rw [if_neg hguard]
  split_ifs with h1 h2
  · refine ⟨by simp [h1], ?_, fun hA _ => absurd h1 hA⟩
    constructor
    · intro hls
      exact absurd hls (by decide)
    · rintro ⟨hb1, hb2⟩
      exact absurd hb1 (lt_asymm h1.1)
  · refine ⟨?_, by simp [h2], fun _ hB => absurd h2 hB⟩
    constructor
    · intro hsl
      exact absurd hsl (by decide)
    · rintro ⟨hb1, hb2⟩
      exact absurd hb1 (lt_asymm h2.1)
  · refine ⟨?_, ?_, fun _ _ => rfl⟩
    · constructor
      · intro hh
        exact absurd hh (by decide)
      · intro hA
        exact absurd hA h1
    · constructor
      · intro hh
        exact absurd hh (by decide)
      · intro hB
        exact absurd hB h2

/-- C3 counterexample: on window22 the short EMA equals the long EMA at
the previous position and ends strictly above it, yet the signal is HOLD
— the claim says a transition starting from equality yields LONG. -/
theorem C3_counterexample :
    secondLast (calculate_ema (window22.map Kline.close) 9)
      = secondLast (calculate_ema (window22.map Kline.close) 21)
    ∧ lastElem (calculate_ema (window22.map Kline.close) 9)
      > lastElem (calculate_ema (window22.map Kline.close) 21)
    ∧ analyze_klines_default window22 = "HOLD" := by
  refine ⟨?_, ?_, ?_⟩ <;>
    norm_num [analyze_klines_default, analyze_klines, window22, calculate_ema, emaLoop,
      secondLast, lastElem, List.replicate, List.getD]

/-- C3 witness: the characterisation applied to the concrete 21-candle
window. -/
theorem C3_witness :
    21 ≤ window21.length
    ∧ (analyze_klines_default window21 = "LONG" ↔
       secondLast (calculate_ema (window21.map Kline.close) 9)
           < secondLast (calculate_ema (window21.map Kline.close) 21)
         ∧ lastElem (calculate_ema (window21.map Kline.close) 9)
           > lastElem (calculate_ema (window21.map Kline.close) 21)) :=
  ⟨by decide, (C3_cross_characterisation window21 (by decide)).1⟩

/-! ## Claim C10: window length invariant -/

/-- C10: handling one closed-candle event preserves the window length —
the handler pops index 0 and then appends, so a window of N candles still
has N candles afterwards — and it presupposes a non-empty window: on an
empty one the pop has nothing to remove. -/
theorem C10_window_length {α : Type} (window : List α) (newRow : α)
    (h : 0 < window.length) :
    (∃ w', updateKlines window newRow = some w' ∧ w'.length = window.length)
    ∧ updateKlines ([] : List α) newRow = none := by
  refine ⟨?_, rfl⟩
  match window, h with
  | x :: t, _ => exact ⟨t ++ [newRow], rfl, by simp⟩

/-- C10 witness: a three-candle window stays a three-candle window. -/
theorem C10_witness :
    0 < ([10, 20, 30] : List ℕ).length
    ∧ ((∃ w', updateKlines ([10, 20, 30] : List ℕ) 40 = some w'
          ∧ w'.length = ([10, 20, 30] : List ℕ).length)
       ∧ updateKlines ([] : List ℕ) 40 = none) :=
  ⟨by decide, C10_window_length [10, 20, 30] 40 (by decide)⟩

/-! ## Claim C6: order quantity -/

/-- C6 (amended): the placed quantity is notional x leverage / price
floored to the quantity precision (floor to an integer at precision 0,
floor at the 10^-precision step otherwise); 25 x 10 at price 100 gives
2.5 at precision 1 and 2 at precision 0; when the formatted quantity is
≤ 0 the open is abandoned with no order placed, no OPEN record, and the
PositionState left unchanged; and on a filled bracket the recorded
quantity and the submitted order both carry exactly the formatted
quantity. -/
theorem C6_quantity (cfg : BotConfig) (st : BotState) (env : TradeEnv)
    (sig : String) (price : ℚ) (hp : env.market_price = some price) :
    (cfg.quantity_precision = 0 →
       format_quantity cfg.quantity_precision (cfg.order_size_usdt * cfg.leverage / price)
         = (⌊cfg.order_size_usdt * cfg.leverage / price⌋ : ℚ))
    ∧ (cfg.quantity_precision ≠ 0 →
       format_quantity cfg.quantity_precision (cfg.order_size_usdt * cfg.leverage / price)
         = (⌊cfg.order_size_usdt * cfg.leverage / price * 10 ^ cfg.quantity_precision⌋ : ℚ)
             / 10 ^ cfg.quantity_precision)
    ∧ format_quantity 1 ((25 * 10 : ℚ) / 100) = 5 / 2
    ∧ format_quantity 0 ((25 * 10 : ℚ) / 100) = 2
    ∧ (format_quantity cfg.quantity_precision (cfg.order_size_usdt * cfg.leverage / price) ≤ 0 →
       (execute_trade cfg st env sig).1 = st
       ∧ ∀ e ∈ (execute_trade cfg st env sig).2,
           isBracketOrder e = false ∧ isLogOpen e = false)
    ∧ (¬ format_quantity cfg.quantity_precision (cfg.order_size_usdt * cfg.leverage / price) ≤ 0 →
       env.bracket = BracketOutcome.filled →
       (execute_trade cfg st env sig).1.position_quantity
         = some (format_quantity cfg.quantity_precision (cfg.order_size_usdt * cfg.leverage / price))
       ∧ Event.bracketOrder (if sig = "LONG" then "BUY" else "SELL")
           (format_quantity cfg.quantity_precision (cfg.order_size_usdt * cfg.leverage / price)) price
           ∈ (execute_trade cfg st env sig).2) := by
  refine ⟨?_, ?_, by norm_num [format_quantity], by norm_num [format_quantity], ?_, ?_⟩
  · intro h0
    simp [format_quantity, h0]
  · intro hne
    simp [format_quantity, hne]
  · intro hq
    rcases hop : env.open_positions with _ | ⟨p, ps⟩ <;>
      unfold execute_trade <;>
      rw [hp, hop] <;>
      simp only [if_pos hq] <;>
      refine ⟨by trivial, ?_⟩ <;>
      simp [isBracketOrder, isLogOpen]
  · intro hq hb
    rcases hop : env.open_positions with _ | ⟨p, ps⟩ <;>
      unfold execute_trade <;>
      rw [hp, hop, hb] <;>
      simp only [if_neg hq] <;>
      exact ⟨by trivial, by simp⟩

/-- C6 counterexample: a flip at price 1000 with precision 0 floors the
quantity to 0, the open is abandoned with no order — but the
PositionState is the old side, not None as the claim states, because
_execute_trade never resets it on this path. -/
theorem C6_counterexample :
    (execute_trade cfgPrec0 stLong envLowPrice "SHORT").1.position_side = some "LONG"
    ∧ some "LONG" ≠ (none : Option String)
    ∧ ∀ e ∈ (execute_trade cfgPrec0 stLong envLowPrice "SHORT").2,
        isBracketOrder e = false := by
  refine ⟨?_, by simp, ?_⟩
  · norm_num [execute_trade, cfgPrec0, stLong, envLowPrice, format_quantity]
  · norm_num [execute_trade, cfgPrec0, stLong, envLowPrice, format_quantity, isBracketOrder]

/-- C6 witness: the quantity theorem applied to the default settings at
price 100. -/
theorem C6_witness :
    envFlip.market_price = some 100
    ∧ ((cfgDefault.quantity_precision = 0 →
         format_quantity cfgDefault.quantity_precision
             (cfgDefault.order_size_usdt * cfgDefault.leverage / 100)
           = (⌊cfgDefault.order_size_usdt * cfgDefault.leverage / 100⌋ : ℚ))
       ∧ (cfgDefault.quantity_precision ≠ 0 →
         format_quantity cfgDefault.quantity_precision
             (cfgDefault.order_size_usdt * cfgDefault.leverage / 100)
           = (⌊cfgDefault.order_size_usdt * cfgDefault.leverage / 100
                 * 10 ^ cfgDefault.quantity_precision⌋ : ℚ)
               / 10 ^ cfgDefault.quantity_precision)
       ∧ format_quantity 1 ((25 * 10 : ℚ) / 100) = 5 / 2
       ∧ format_quantity 0 ((25 * 10 : ℚ) / 100) = 2
       ∧ (format_quantity cfgDefault.quantity_precision
            (cfgDefault.order_size_usdt * cfgDefault.leverage / 100) ≤ 0 →
          (execute_trade cfgDefault stFlat envFlip "LONG").1 = stFlat
          ∧ ∀ e ∈ (execute_trade cfgDefault stFlat envFlip "LONG").2,
              isBracketOrder e = false ∧ isLogOpen e = false)
       ∧ (¬ format_quantity cfgDefault.quantity_precision
            (cfgDefault.order_size_usdt * cfgDefault.leverage / 100) ≤ 0 →
          envFlip.bracket = BracketOutcome.filled →
          (execute_trade cfgDefault stFlat envFlip "LONG").1.position_quantity
            = some (format_quantity cfgDefault.quantity_precision
                (cfgDefault.order_size_usdt * cfgDefault.leverage / 100))
          ∧ Event.bracketOrder (if "LONG" = "LONG" then "BUY" else "SELL")
              (format_quantity cfgDefault.quantity_precision
                (cfgDefault.order_size_usdt * cfgDefault.leverage / 100)) 100
              ∈ (execute_trade cfgDefault stFlat envFlip "LONG").2)) :=
  ⟨rfl, C6_quantity cfgDefault stFlat envFlip "LONG" 100 rfl⟩

/-! ## Claim C4: bracket failure during a flip -/

/-- C4 (amended): when the bracket call returns a falsy order the flip is
aborted with position_side set to None and no OPEN record; when it
raises, the exception is caught, no OPEN record is logged and the whole
PositionState is left unchanged — during a flip this retains the old
side rather than leaving it flat/None. -/
theorem C4_failure_no_position (cfg : BotConfig) (st : BotState)
    (env : TradeEnv) (sig : String) (price : ℚ)
    (hp : env.market_price = some price)
    (hq : ¬ format_quantity cfg.quantity_precision
        (cfg.order_size_usdt * cfg.leverage / price) ≤ 0) :
    (env.bracket = BracketOutcome.nullOrder →
       (execute_trade cfg st env sig).1.position_side = none
       ∧ ∀ e ∈ (execute_trade cfg st env sig).2, isLogOpen e = false)
    ∧ (env.bracket = BracketOutcome.raised →
       (execute_trade cfg st env sig).1 = st
       ∧ ∀ e ∈ (execute_trade cfg st env sig).2, isLogOpen e = false) := by
  rcases hop : env.open_positions with _ | ⟨p, ps⟩ <;>
    unfold execute_trade <;>
    rw [hp, hop] <;>
    constructor <;>
    intro hb <;>
    rw [hb] <;>
    simp only [if_neg hq] <;>
    refine ⟨by trivial, ?_⟩ <;>
    simp [isLogOpen]

/-- C4 counterexample: a flip out of a LONG position whose bracket call
raises leaves position_side = some LONG — an assumed-open position is
retained, where the claim requires flat/None. -/
theorem C4_counterexample :
    (execute_trade cfgDefault stLong envRaise "SHORT").1.position_side = some "LONG"
    ∧ some "LONG" ≠ (none : Option String) := by
  constructor
  · norm_num [execute_trade, cfgDefault, stLong, envRaise, format_quantity]
  · simp

/-- C4 witness: the amended theorem applied to an open-from-flat at price
100 whose bracket call returns a falsy order. -/
theorem C4_witness :
    envNull.market_price = some 100
    ∧ ¬ format_quantity cfgDefault.quantity_precision
        (cfgDefault.order_size_usdt * cfgDefault.leverage / 100) ≤ 0
    ∧ ((envNull.bracket = BracketOutcome.nullOrder →
          (execute_trade cfgDefault stFlat envNull "LONG").1.position_side = none
          ∧ ∀ e ∈ (execute_trade cfgDefault stFlat envNull "LONG").2, isLogOpen e = false)
       ∧ (envNull.bracket = BracketOutcome.raised →
          (execute_trade cfgDefault stFlat envNull "LONG").1 = stFlat
          ∧ ∀ e ∈ (execute_trade cfgDefault stFlat envNull "LONG").2, isLogOpen e = false)) :=
  ⟨rfl, by norm_num [cfgDefault, format_quantity],
   C4_failure_no_position cfgDefault stFlat envNull "LONG" 100 rfl
     (by norm_num [cfgDefault, format_quantity])⟩

/-! ## Claim C5: flip protocol ordering -/

/-- C5: whenever a position is open at flip time, the trace starts with
exactly one CLOSED (Flip) record, then the close order, then the settle
sleep; everything after — the bracket order and any OPEN record — comes
later, and no further CLOSED record or close order ever appears, so the
CLOSED record precedes the OPEN record and the close precedes the new
open, separated by the settle delay. -/
theorem C5_flip_protocol (cfg : BotConfig) (st : BotState) (env : TradeEnv)
    (sig : String) (position : PositionInfo) (ps : List PositionInfo)
    (hpos : env.open_positions = position :: ps) :
    ∃ tail,
      (execute_trade cfg st env sig).2
        = Event.logClosed "CLOSED_BY_FLIP"
          :: Event.closeOrder position.positionAmt
              (if position.positionAmt > 0 then "SELL" else "BUY")
          :: Event.settleSleep :: tail
      ∧ (∀ e ∈ tail, isLogClosed e = false ∧ isCloseOrder e = false)
      ∧ ((execute_trade cfg st env sig).2.filter isLogClosed)
          = [Event.logClosed "CLOSED_BY_FLIP"] := by
  unfold execute_trade
  rw [hpos]
  rcases hm : env.market_price with _ | price
  · exact ⟨[], by simp, by simp, by simp [isLogClosed]⟩
  · by_cases hq : format_quantity cfg.quantity_precision
        (cfg.order_size_usdt * cfg.leverage / price) ≤ 0
    · simp only [if_pos hq]
      exact ⟨[], by simp, by simp, by simp [isLogClosed]⟩
    · simp only [if_neg hq]
      rcases hb : env.bracket
      · exact ⟨[Event.bracketOrder (if sig = "LONG" then "BUY" else "SELL")
            (format_quantity cfg.quantity_precision (cfg.order_size_usdt * cfg.leverage / price)) price,
            Event.logOpen sig price
              (format_quantity cfg.quantity_precision (cfg.order_size_usdt * cfg.leverage / price))],
          by simp, by simp [isLogClosed, isCloseOrder], by simp [isLogClosed]⟩
      · exact ⟨[Event.bracketOrder (if sig = "LONG" then "BUY" else "SELL")
            (format_quantity cfg.quantity_precision (cfg.order_size_usdt * cfg.leverage / price)) price],
          by simp, by simp [isLogClosed, isCloseOrder], by simp [isLogClosed]⟩
      · exact ⟨[Event.bracketOrder (if sig = "LONG" then "BUY" else "SELL")
            (format_quantity cfg.quantity_precision (cfg.order_size_usdt * cfg.leverage / price)) price],
          by simp, by simp [isLogClosed, isCloseOrder], by simp [isLogClosed]⟩

/-- C5 witness: the flip protocol on a concrete successful flip. -/
theorem C5_witness :
    envFlip.open_positions = (⟨2⟩ : PositionInfo) :: []
    ∧ ∃ tail,
        (execute_trade cfgDefault stFlat envFlip "SHORT").2
          = Event.logClosed "CLOSED_BY_FLIP"
            :: Event.closeOrder (PositionInfo.mk 2).positionAmt
                (if (PositionInfo.mk 2).positionAmt > 0 then "SELL" else "BUY")
            :: Event.settleSleep :: tail
        ∧ (∀ e ∈ tail, isLogClosed e = false ∧ isCloseOrder e = false)
        ∧ ((execute_trade cfgDefault stFlat envFlip "SHORT").2.filter isLogClosed)
            = [Event.logClosed "CLOSED_BY_FLIP"] :=
  ⟨rfl, C5_flip_protocol cfgDefault stFlat envFlip "SHORT" ⟨2⟩ [] rfl⟩

/-! ## Claim C9: close_position result is never inspected -/

/-- C9: neither _execute_trade nor _check_take_profit depends on whether
close_position succeeded — the runs are identical for a failing and a
succeeding close, so the CLOSED record is still written, the state still
cleared (take-profit) and the new side still opened (flip) — and
close_position itself returns None rather than raising on an API
error. -/
theorem C9_close_result_ignored :
    (∀ cfg st env sig b,
        execute_trade cfg st env sig
          = execute_trade cfg st { env with close_succeeds := b } sig)
    ∧ (∀ tp st mp pos b b',
        check_take_profit tp st mp pos b = check_take_profit tp st mp pos b')
    ∧ (∀ msg, close_position (LegOutcome.apiError msg) = none) := by
  refine ⟨?_, ?_, ?_⟩
  · intro cfg st env sig b
    cases env
    rfl
  · intro tp st mp pos b b'
    rfl
  · intro msg
    rfl

/-! ## Claim C1: bracket order with failed stop leg -/

/-- C1 (code bug): when the entry leg fills and the stop leg fails, the
gateway raises a translated error and emits no cancel and no close — the
cleanup after the raise statements (lines 108-111 of
binance_client_multi.py) is dead code, contradicting its own comment —
so the filled position is left without its protective stop. -/
theorem C1_dangling_position :
    create_market_order_with_sl envStopFails "BUY" 2 100 4
      = (Except.error "Binance API hatası: boom",
         [GwEvent.marketOrder "BUY" 2, GwEvent.halfSecondSleep,
          GwEvent.stopMarketOrder "SELL" 96])
    ∧ GwEvent.cancelAllOpenOrders ∉
        (create_market_order_with_sl envStopFails "BUY" 2 100 4).2 := by
  have h : create_market_order_with_sl envStopFails "BUY" 2 100 4
      = (Except.error "Binance API hatası: boom",
         [GwEvent.marketOrder "BUY" 2, GwEvent.halfSecondSleep,
          GwEvent.stopMarketOrder "SELL" 96]) := by
    simp only [create_market_order_with_sl, envStopFails]
    norm_num
    decide
  refine ⟨h, ?_⟩
  rw [h]
  decide

/-! ## Claim C7: registry behaviour on start failure -/

/-- C7 (amended): on any typed start failure the registry registers
nothing, persists nothing and hands the caller plain False; the typed
reason is swallowed inside UserBotInstance.start and never reaches the
Registry. -/
theorem C7_no_register_on_failure (bots : List String) (uid : String)
    (reason : StartFailure) :
    start_user_bot bots uid (StartOutcome.failure reason)
      = { registered := bots, persisted := [], returned := false } := rfl

/-- C7 counterexample: two different typed failure reasons produce the
identical caller-visible outcome, so no typed reason is propagated —
start's own except block collapses every failure to None before the
Registry sees it. -/
theorem C7_counterexample :
    start_user_bot [] "u1" (StartOutcome.failure StartFailure.symbolNotFound)
      = start_user_bot [] "u1" (StartOutcome.failure StartFailure.noHistoricalData)
    ∧ instance_start (StartOutcome.failure StartFailure.symbolNotFound) = none :=
  ⟨rfl, rfl⟩

/-! ## Claim C8: the cleanup sweep -/

/-- Membership in the uid image survives filtering out a different
uid. -/
lemma mem_map_filter_ne (bots : List BotEntry) (v u : String) (hne : u ≠ v) :
    u ∈ ((bots.filter (fun b => b.uid ≠ v)).map BotEntry.uid)
      ↔ u ∈ bots.map BotEntry.uid := by
  simp only [List.mem_map, List.mem_filter, decide_eq_true_eq]
  constructor
  · rintro ⟨b, ⟨hb, _⟩, rfl⟩
    exact ⟨b, hb, rfl⟩
  · rintro ⟨b, hb, rfl⟩
    exact ⟨b, ⟨hb, fun hv => hne hv⟩, rfl⟩

/-- Evicting one uid neither persists nor disturbs a different uid. -/
lemma evictOne_other (bots : List BotEntry) (v u : String) (hne : u ≠ v) :
    (u ∈ ((evictOne bots v).1.map BotEntry.uid) ↔ u ∈ bots.map BotEntry.uid)
    ∧ u ∉ (evictOne bots v).2 := by
  unfold evictOne
  cases hf : bots.find? (fun e => e.uid = v) with
  | none => simp
  | some e =>
      by_cases hr : e.evict_raises
      · simp [hr]
      · simp only [hr, if_false, Bool.false_eq_true]
        exact ⟨mem_map_filter_ne bots v u hne, by simp [hne]⟩

/-- Eviction preserves distinctness of the registry's uids. -/
lemma evictOne_nodup (bots : List BotEntry) (v : String)
    (h : (bots.map BotEntry.uid).Nodup) :
    ((evictOne bots v).1.map BotEntry.uid).Nodup := by
  unfold evictOne
  cases hf : bots.find? (fun e => e.uid = v) with
  | none => simpa
  | some e =>
      by_cases hr : e.evict_raises
      · simpa [hr]
      · simp only [hr, if_false, Bool.false_eq_true]
        exact List.Nodup.sublist ((List.filter_sublist bots).map BotEntry.uid) h

/-- An entry with a different uid survives one eviction step. -/
lemma evictOne_mem (bots : List BotEntry) (v : String) (e : BotEntry)
    (he : e ∈ bots) (hne : e.uid ≠ v) :
    e ∈ (evictOne bots v).1 := by
  unfold evictOne
  cases hf : bots.find? (fun x => x.uid = v) with
  | none => simpa
  | some e' =>
      by_cases hr : e'.evict_raises
      · simpa [hr]
      · simp only [hr, if_false, Bool.false_eq_true]
        exact List.mem_filter.mpr ⟨he, by simpa using hne⟩

/-- A uid absent from the queue is never persisted and its presence in
the registry is unchanged by the whole eviction pass. -/
lemma evictAll_absent (queue : List String) (bots : List BotEntry) (u : String)
    (hu : u ∉ queue) :
    (u ∈ ((evictAll bots queue).1.map BotEntry.uid) ↔ u ∈ bots.map BotEntry.uid)
    ∧ u ∉ (evictAll bots queue).2 := by
  induction queue generalizing bots with
  | nil => simp [evictAll]
  | cons v rest ih =>
      have hne : u ≠ v := fun h => hu (h ▸ List.mem_cons_self v rest)
      have hrest : u ∉ rest := fun h => hu (List.mem_cons_of_mem _ h)
      have h1 := evictOne_other bots v u hne
      have h2 := ih (evictOne bots v).1 hrest
      simp only [evictAll]
      refine ⟨h2.1.trans h1.1, ?_⟩
      simp only [List.mem_append]
      rintro (h | h)
      · exact h1.2 h
      · exact h2.2 h

/-- A cleanly evicting entry whose uid is queued exactly once is removed
from the registry and persisted exactly once. -/
lemma evictAll_present (queue : List String) (bots : List BotEntry) (e : BotEntry)
    (hnd : (bots.map BotEntry.uid).Nodup)
    (he : e ∈ bots) (hok : e.evict_raises = false)
    (hc : queue.count e.uid = 1) :
    e.uid ∉ ((evictAll bots queue).1.map BotEntry.uid)
    ∧ (evictAll bots queue).2.count e.uid = 1 := by
  induction queue generalizing bots with
  | nil => simp at hc
  | cons v rest ih =>
      by_cases hv : e.uid = v
      · subst hv
        have hrest : e.uid ∉ rest := by
          rw [List.count_cons_self] at hc
          exact List.count_eq_zero.mp (by omega)
        cases hfind : bots.find? (fun x => x.uid = e.uid) with
        | none =>
            rw [List.find?_eq_none] at hfind
            exact absurd (by simp : (fun x => decide (x.uid = e.uid)) e = true)
              (by simpa using hfind e he)
        | some e' =>
            have hpe : e'.uid = e.uid := by simpa using List.find?_some hfind
            have hme : e' ∈ bots := List.mem_of_find?_eq_some hfind
            have heq : e' = e :=
              List.inj_on_of_nodup_map hnd hme he hpe
            subst heq
            simp only [evictAll, evictOne, hfind, hok, if_false, Bool.false_eq_true]
            have habs : e'.uid ∉ ((bots.filter (fun b => b.uid ≠ e'.uid)).map BotEntry.uid) := by
              simp [List.mem_map, List.mem_filter]
            have h2 := evictAll_absent rest (bots.filter (fun b => b.uid ≠ e'.uid)) e'.uid hrest
            constructor
            · intro hmem
              exact habs (h2.1.mp hmem)
            · rw [List.count_append]
              rw [List.count_eq_zero.mpr h2.2]
              simp
      · have hne : e.uid ≠ v := hv
        have hc' : rest.count e.uid = 1 := by
          rwa [List.count_cons_of_ne hne] at hc
        have hstep0 : (evictOne bots v).2.count e.uid = 0 :=
          List.count_eq_zero.mpr (evictOne_other bots v e.uid hne).2
        have h := ih (evictOne bots v).1
          (evictOne_nodup bots v hnd) (evictOne_mem bots v e he hne) hc'
        simp only [evictAll]
        refine ⟨h.1, ?_⟩
        rw [List.count_append, hstep0, h.2]

/-- C8: in one sweep iteration every registered entry whose running flag
is false and whose eviction does not raise is removed from the map with
its stopped status persisted exactly once, regardless of failures on
other entries (per-entry try/except); and the sweep loop body always
yields a successor — a normal iteration then a five-minute sleep, an
erroring one a one-minute backoff — so the loop never exits. -/
theorem C8_sweep_eviction (bots : List BotEntry)
    (hnd : (bots.map BotEntry.uid).Nodup)
    (e : BotEntry) (he : e ∈ bots)
    (hrun : e.running = false) (hok : e.evict_raises = false) :
    e.uid ∉ ((sweepOnce bots).1.map BotEntry.uid)
    ∧ (sweepOnce bots).2.count e.uid = 1
    ∧ (∀ bs, sweep_loop_step bs true = (bs, [], SweepSleep.oneMinuteBackoff))
    ∧ (∀ bs, sweep_loop_step bs false
         = ((sweepOnce bs).1, (sweepOnce bs).2, SweepSleep.fiveMinutes)) := by
  have hnd' : ((bots.filter (fun x => x.running = false)).map BotEntry.uid).Nodup :=
    List.Nodup.sublist ((List.filter_sublist bots).map BotEntry.uid) hnd
  have hmem : e.uid ∈ ((bots.filter (fun x => x.running = false)).map BotEntry.uid) :=
    List.mem_map.mpr ⟨e, List.mem_filter.mpr ⟨he, by simp [hrun]⟩, rfl⟩
  have hqueue := List.count_eq_one_of_mem hnd' hmem
  have h := evictAll_present _ bots e hnd he hok hqueue
  exact ⟨h.1, h.2, fun bs => rfl, fun bs => rfl⟩

/-- C8 witness: the sweep on a concrete three-entry registry — entry a is
stopped and evicts cleanly, b is running, c is stopped but its stop()
raises; a is still removed and persisted exactly once. -/
theorem C8_witness :
    (botsExample.map BotEntry.uid).Nodup
    ∧ (⟨"a", false, false⟩ : BotEntry) ∈ botsExample
    ∧ (BotEntry.mk "a" false false).running = false
    ∧ (BotEntry.mk "a" false false).evict_raises = false
    ∧ ((BotEntry.mk "a" false false).uid ∉ ((sweepOnce botsExample).1.map BotEntry.uid)
       ∧ (sweepOnce botsExample).2.count (BotEntry.mk "a" false false).uid = 1
       ∧ (∀ bs, sweep_loop_step bs true = (bs, [], SweepSleep.oneMinuteBackoff))
       ∧ (∀ bs, sweep_loop_step bs false
            = ((sweepOnce bs).1, (sweepOnce bs).2, SweepSleep.fiveMinutes))) :=
  ⟨by decide, by decide, rfl, rfl,
   C8_sweep_eviction botsExample (by decide) ⟨"a", false, false⟩ (by decide) rfl rfl⟩

end Ezyago
